import Mathlib

/-!
Shallow embedding of `crates/language_models/src/provider/grok.rs`: the Grok (x.ai)
language-model provider adapter. External collaborators (the credential store, the
wire-format client, the GUI toolkit) are represented by explicit parameters and by
event traces recording the side effects each operation performs, in order.
-/

namespace Grok

/-- Lexicographic order on character lists by code point; models the order Rust
`BTreeMap<String, _>` uses on its keys (byte-wise UTF-8 order agrees with
code-point order on the ASCII keys appearing here). -/
def listLtChars : List Char → List Char → Bool
  | [], [] => false
  | [], _ :: _ => true
  | _ :: _, [] => false
  | a :: as, b :: bs =>
    if a.toNat < b.toNat then true
    else if b.toNat < a.toNat then false
    else listLtChars as bs

/-- Models the Rust standard-library order on `String` (used by `BTreeMap`). -/
def strLt (a b : String) : Bool := listLtChars a.data b.data

/-- Models Rust `str::contains` with a string pattern: `strContains s pat` is true
iff `pat` occurs in `s` as a contiguous substring. -/
def strContains (s pat : String) : Bool := decide (pat.data <:+: s.data)

/-- `open_ai::Model::Custom`, the only `open_ai::Model` variant this provider
constructs: a model descriptor. The `usize`/`u32` token counts are modelled as
`Nat` (all values involved are far below either bound). -/
structure Model where
  name : String
  display_name : Option String
  max_tokens : Nat
  max_output_tokens : Option Nat
  max_completion_tokens : Option Nat
deriving DecidableEq

/-- Modelled from the spec: `open_ai::Model::id` lives in the external `open_ai`
crate, which is not under `src/`. Per the spec ("Identity = name"; the model
descriptor is identified by its name), `id` of a `Custom` descriptor returns its
`name` field. -/
def Model.id (m : Model) : String := m.name

/-- `AvailableModel`: an operator-configured model entry from settings. -/
structure AvailableModel where
  name : String
  display_name : String
  max_tokens : Nat
  max_output_tokens : Option Nat
  max_completion_tokens : Option Nat
deriving DecidableEq

/-- `GrokSettings`: the settings slice this provider consumes. -/
structure GrokSettings where
  api_url : String
  available_models : List AvailableModel
deriving DecidableEq

/-- `State`: the mutable provider state `{api_key, api_key_from_env}`. The
`_subscription` handle only re-notifies on settings changes and carries no data, so
it is omitted. Credential-store secrets are modelled as the strings they UTF-8
encode: `set_api_key` stores `api_key.as_bytes()` and `authenticate` decodes stored
bytes with `String::from_utf8`, mutually inverse operations, so the byte level (and
the `from_utf8`-failure branch, unreachable for entries this file writes) is
elided. -/
structure State where
  api_key : Option String
  api_key_from_env : Bool
deriving DecidableEq

/-- The observable side effects of a `State` operation, in execution order: a
credential-store read at a URL, a credential-store write (whose success flag `ok`
records the outcome of the external store), the in-memory assignment performed
inside `this.update`, and `cx.notify()`. -/
inductive Event where
  | storeRead (url : String)
  | storeWrite (url : String) (label : String) (secret : String) (ok : Bool)
  | setState (api_key : Option String) (api_key_from_env : Bool)
  | notify
deriving DecidableEq

/-- `language_model::AuthenticateError`, restricted to the arms this file can
produce: `CredentialsNotFound`, and the catch-all conversion used for the
remaining error paths. -/
inductive AuthenticateError where
  | credentialsNotFound
  | other (msg : String)
deriving DecidableEq

/-- `State::is_authenticated`: true iff an api key is present. -/
def State.is_authenticated (s : State) : Bool := s.api_key.isSome

/-- `State::reset_api_key`: clears the key and the env flag and notifies. It
performs no credential-store operation. Returns the task result, the new state and
the event trace. -/
def State.reset_api_key (_s : State) : Except String Unit × State × List Event :=
  (.ok (), { api_key := none, api_key_from_env := false },
   [.setState none false, .notify])

/-- `State::set_api_key`: writes the key to the credential store under the
configured `api_url` with label `"Bearer"` (a store failure, `write_ok = false`, is
only logged via `log_err`), then assigns `api_key` with `api_key_from_env = false`
and notifies. -/
def State.set_api_key (_s : State) (api_key : String) (api_url : String)
    (write_ok : Bool) : Except String Unit × State × List Event :=
  (.ok (), { api_key := some api_key, api_key_from_env := false },
   [.storeWrite api_url "Bearer" api_key write_ok,
    .setState (some api_key) false, .notify])

/-- `State::authenticate`: immediate success when already authenticated; otherwise
adopt the `XAI_API_KEY` environment value (`env`) if set, flagged `from_env`; else
read the credential store at the configured `api_url` and adopt the stored secret,
not flagged `from_env`; fail with `CredentialsNotFound` when neither source yields
a key. -/
def State.authenticate (s : State) (env : Option String)
    (store : String → Option (String × String)) (api_url : String) :
    Except AuthenticateError Unit × State × List Event :=
  if s.is_authenticated then (.ok (), s, [])
  else
    match env with
    | some api_key =>
      (.ok (), { api_key := some api_key, api_key_from_env := true },
       [.setState (some api_key) true, .notify])
    | none =>
      match store api_url with
      | none => (.error .credentialsNotFound, s, [.storeRead api_url])
      | some (_, api_key) =>
        (.ok (), { api_key := some api_key, api_key_from_env := false },
         [.storeRead api_url, .setState (some api_key) false, .notify])

/-- `GrokLanguageModel`: the per-model handle. The shared `state` and `http_client`
references and the `RateLimiter::new(4)` are runtime plumbing; the state read and
the wire call are passed explicitly to the operations below. -/
structure GrokLanguageModel where
  id : String
  model : Model
deriving DecidableEq

/-- `GrokLanguageModelProvider::create_language_model`: wraps a descriptor into a
handle whose id is the descriptor id. -/
def create_language_model (model : Model) : GrokLanguageModel :=
  { id := model.id, model := model }

/-- `BTreeMap::insert` on a map represented as an association list sorted by
`strLt`: replaces the value when the key is already present, otherwise inserts at
the key-ordered position. -/
def btreeInsert (k : String) (v : Model) :
    List (String × Model) → List (String × Model)
  | [] => [(k, v)]
  | (k', v') :: rest =>
    if strLt k k' then (k, v) :: (k', v') :: rest
    else if k = k' then (k, v) :: rest
    else (k', v') :: btreeInsert k v rest

/-- The fixed built-in model inserts of `provided_models`, in source order. The
`name` fields of the two entries keyed `grok-3-mini-thinking-latest` and
`grok-3-mini-thinking-fast-latest` reproduce the source verbatim (lines 247 to
267): they read `grok-3-mini-latest` and `grok-3-mini-fast-latest`, without the
`thinking` marker. -/
def builtin_models : List (String × Model) :=
  []
  |> btreeInsert "grok-3-latest"
      { name := "grok-3-latest", display_name := some "Grok 3",
        max_tokens := 131072, max_output_tokens := some 4096,
        max_completion_tokens := some 4096 }
  |> btreeInsert "grok-3-fast-latest"
      { name := "grok-3-fast-latest", display_name := some "Grok 3 Fast",
        max_tokens := 131072, max_output_tokens := some 4096,
        max_completion_tokens := some 4096 }
  |> btreeInsert "grok-3-mini-latest"
      { name := "grok-3-mini-latest", display_name := some "Grok 3 Mini",
        max_tokens := 131072, max_output_tokens := some 4096,
        max_completion_tokens := some 4096 }
  |> btreeInsert "grok-3-mini-fast-latest"
      { name := "grok-3-mini-fast-latest", display_name := some "Grok 3 Mini Fast",
        max_tokens := 131072, max_output_tokens := some 4096,
        max_completion_tokens := some 4096 }
  |> btreeInsert "grok-3-mini-thinking-latest"
      { name := "grok-3-mini-latest",
        display_name := some "Grok 3 Mini (Thinking)",
        max_tokens := 131072, max_output_tokens := some 4096,
        max_completion_tokens := some 4096 }
  |> btreeInsert "grok-3-mini-thinking-fast-latest"
      { name := "grok-3-mini-fast-latest",
        display_name := some "Grok 3 Mini Fast (Thinking)",
        max_tokens := 131072, max_output_tokens := some 4096,
        max_completion_tokens := some 4096 }
  |> btreeInsert "grok-2-latest"
      { name := "grok-2-latest", display_name := some "Grok 2",
        max_tokens := 131072, max_output_tokens := some 4096,
        max_completion_tokens := some 4096 }
  |> btreeInsert "grok-2-vision-latest"
      { name := "grok-2-vision-latest", display_name := some "Grok 2 Vision",
        max_tokens := 32768, max_output_tokens := some 4096,
        max_completion_tokens := some 4096 }

/-- The `BTreeMap` built by `GrokLanguageModelProvider::provided_models`: the
built-in inserts, then one insert per settings entry keyed by its name. -/
def provided_models_map (settings : GrokSettings) : List (String × Model) :=
  settings.available_models.foldl
    (fun models m =>
      btreeInsert m.name
        { name := m.name, display_name := some m.display_name,
          max_tokens := m.max_tokens, max_output_tokens := m.max_output_tokens,
          max_completion_tokens := m.max_completion_tokens } models)
    builtin_models

/-- `GrokLanguageModelProvider::provided_models`: the final map values in key
order, each wrapped into a handle by `create_language_model`. -/
def provided_models (settings : GrokSettings) : List GrokLanguageModel :=
  (provided_models_map settings).map (fun kv => create_language_model kv.2)

/-- `GrokLanguageModel::supports_tools`: always true. -/
def GrokLanguageModel.supports_tools (_m : GrokLanguageModel) : Bool := true

/-- `GrokLanguageModel::supports_images`: true iff the model id contains
`"vision"`. -/
def GrokLanguageModel.supports_images (m : GrokLanguageModel) : Bool :=
  strContains m.model.id "vision"

/-- `language_model::LanguageModelToolChoice`. -/
inductive LanguageModelToolChoice where
  | auto
  | any
  | none
deriving DecidableEq

/-- `GrokLanguageModel::supports_tool_choice`: true for every choice arm. -/
def GrokLanguageModel.supports_tool_choice (_m : GrokLanguageModel)
    (choice : LanguageModelToolChoice) : Bool :=
  match choice with
  | .auto => true
  | .any => true
  | .none => true

/-- The request handed to the external wire-format client
`open_ai::stream_completion`: the resolved endpoint and the bearer key (the
translated request body is out of scope). -/
structure WireRequest where
  api_url : String
  api_key : String
deriving DecidableEq

/-- The private helper `GrokLanguageModel::stream_completion` (source lines 343 to
370): read `api_key` and the configured `api_url` from the state entity at call
time (`state = none` models a dropped app state, the `read_entity` failure), fail
fast with "Missing Grok API Key" when no key is set, default an empty `api_url` to
the public endpoint, and otherwise issue exactly one wire request. Returns the call
result together with the list of wire requests issued. -/
def GrokLanguageModel.stream_completion (_m : GrokLanguageModel)
    (state : Option State) (api_url : String) :
    Except String WireRequest × List WireRequest :=
  match state with
  | none => (.error "App state dropped", [])
  | some s =>
    match s.api_key with
    | none => (.error "Missing Grok API Key", [])
    | some api_key =>
      let api_url := if api_url.isEmpty then "https://api.x.ai/v1" else api_url
      let req : WireRequest := { api_url := api_url, api_key := api_key }
      (.ok req, [req])

/-- `ConfigurationView::save_api_key`, distilled to its data flow: given the editor
text, return the key submitted to `State::set_api_key` (`none` when nothing is
submitted). The source returns early when the raw text `is_empty()` and otherwise
passes the raw text through unchanged; it performs no trimming. -/
def ConfigurationView.save_api_key (text : String) : Option String :=
  if text.isEmpty then none else some text

/-- Models Rust `str::trim` over the vocabulary of the claims: strips leading and
trailing whitespace characters. -/
def strTrim (text : String) : String :=
  ⟨((text.data.dropWhile Char.isWhitespace).reverse.dropWhile
      Char.isWhitespace).reverse⟩

/-- The claimed behaviour of `save_api_key`, stated from the spec words for
comparison with the source definition above: trim the entered text first and submit
the trimmed text iff it is non-empty. -/
def save_api_key_claimed (text : String) : Option String :=
  if (strTrim text).isEmpty then none else some (strTrim text)

/-- Claim C1, evaluated at a failing input: with a settings override named
`grok-3-mini-latest` (the name of a built-in model), the catalog returned by
`provided_models` contains two entries whose descriptor name is
`grok-3-mini-latest` — the override, and the built-in entry keyed
`grok-3-mini-thinking-latest` whose `name` field also reads `grok-3-mini-latest` —
not exactly one entry carrying the override metadata as claimed. -/
theorem c1_two_entries_for_overridden_name :
    ((provided_models
        { api_url := "",
          available_models :=
            [{ name := "grok-3-mini-latest",
               display_name := "Grok 3 Mini Override",
               max_tokens := 100000,
               max_output_tokens := some 1024,
               max_completion_tokens := some 1024 }] }).filter
      (fun h => decide (h.model.name = "grok-3-mini-latest"))).length = 2 := by
  decide

/-- Claim C5, evaluated on the built-in catalog map (no settings overrides):
exactly the two thinking-variant entries are stored under keys that differ from
the `name` field of their descriptor, refuting "for every key-value pair,
key = value.name". -/
theorem c5_key_name_mismatch :
    ((provided_models_map { api_url := "", available_models := [] }).filter
        (fun kv => decide (kv.1 ≠ kv.2.name))).map (fun kv => (kv.1, kv.2.name)) =
      [("grok-3-mini-thinking-fast-latest", "grok-3-mini-fast-latest"),
       ("grok-3-mini-thinking-latest", "grok-3-mini-latest")] := by
  decide

/-- Claim C2: when the state is not yet authenticated and `XAI_API_KEY` is set,
`authenticate` succeeds, adopts the environment value with
`api_key_from_env = true`, and its event trace contains no credential-store read
or write. -/
theorem c2_authenticate_env_key (s : State) (env_key : String)
    (store : String → Option (String × String)) (api_url : String)
    (h : s.is_authenticated = false) :
    s.authenticate (some env_key) store api_url =
      (.ok (), { api_key := some env_key, api_key_from_env := true },
       [.setState (some env_key) true, .notify]) := by
  simp [State.authenticate, h]

/-- Witness for C2 at a concrete state, environment value and store. -/
theorem c2_witness :
    State.is_authenticated { api_key := none, api_key_from_env := false } = false ∧
    State.authenticate { api_key := none, api_key_from_env := false }
        (some "xai-key") (fun _ => none) "https://example.com/v1" =
      (.ok (), { api_key := some "xai-key", api_key_from_env := true },
       [.setState (some "xai-key") true, .notify]) :=
  ⟨by decide,
   c2_authenticate_env_key _ "xai-key" _ "https://example.com/v1" (by decide)⟩

/-- Claim C3: not authenticated, no environment key, and no stored credential for
the configured URL: `authenticate` fails with `CredentialsNotFound`, leaving the
state unchanged, after a single store read. -/
theorem c3_authenticate_credentials_not_found (s : State)
    (store : String → Option (String × String)) (api_url : String)
    (h : s.is_authenticated = false) (hstore : store api_url = none) :
    s.authenticate none store api_url =
      (.error .credentialsNotFound, s, [.storeRead api_url]) := by
  simp [State.authenticate, h, hstore]

/-- Witness for C3 at a concrete state and an empty store. -/
theorem c3_witness :
    State.is_authenticated { api_key := none, api_key_from_env := false } = false ∧
    State.authenticate { api_key := none, api_key_from_env := false } none
        (fun _ => none) "https://example.com/v1" =
      (.error .credentialsNotFound,
       { api_key := none, api_key_from_env := false },
       [.storeRead "https://example.com/v1"]) :=
  ⟨by decide,
   c3_authenticate_credentials_not_found _ _ "https://example.com/v1" (by decide)
     rfl⟩

/-- Claim C4: when the state holds no api key, `stream_completion` fails with the
"Missing Grok API Key" error and issues no wire request. -/
theorem c4_stream_completion_missing_key (m : GrokLanguageModel) (s : State)
    (api_url : String) (h : s.api_key = none) :
    m.stream_completion (some s) api_url = (.error "Missing Grok API Key", []) := by
  simp [GrokLanguageModel.stream_completion, h]

/-- Witness for C4 at a concrete handle and an unauthenticated state. -/
theorem c4_witness :
    State.api_key { api_key := none, api_key_from_env := false } = none ∧
    GrokLanguageModel.stream_completion
        { id := "grok-3-latest",
          model := { name := "grok-3-latest", display_name := some "Grok 3",
                     max_tokens := 131072, max_output_tokens := some 4096,
                     max_completion_tokens := some 4096 } }
        (some { api_key := none, api_key_from_env := false }) "" =
      (.error "Missing Grok API Key", []) :=
  ⟨rfl, c4_stream_completion_missing_key _ _ "" rfl⟩

/-- Claim C6: `set_api_key` first writes the credential store (label "Bearer"),
then assigns the key with `api_key_from_env = false` and notifies; the operation
returns success and produces the same mutation and trace shape whether the store
write succeeded or failed (`write_ok`), the failure being only logged. -/
theorem c6_set_api_key_best_effort (s : State) (api_key api_url : String)
    (write_ok : Bool) :
    s.set_api_key api_key api_url write_ok =
      (.ok (), { api_key := some api_key, api_key_from_env := false },
       [.storeWrite api_url "Bearer" api_key write_ok,
        .setState (some api_key) false, .notify]) := rfl

/-- Claim C7: when a key is present, `stream_completion` issues exactly one wire
request, whose endpoint is the default `https://api.x.ai/v1` when the configured
`api_url` is the empty string, and the configured string verbatim otherwise. -/
theorem c7_api_url_resolution (m : GrokLanguageModel) (s : State)
    (api_key api_url : String) (h : s.api_key = some api_key) :
    (m.stream_completion (some s) api_url).2 =
      [{ api_url := if api_url = "" then "https://api.x.ai/v1" else api_url,
         api_key := api_key }] := by
  simp [GrokLanguageModel.stream_completion, h, String.isEmpty_iff]

/-- Witness for C7 at a concrete handle and key, covering both the empty and the
non-empty configured URL. -/
theorem c7_witness :
    State.api_key { api_key := some "xai-key", api_key_from_env := false } =
      some "xai-key" ∧
    (GrokLanguageModel.stream_completion
        { id := "grok-3-latest",
          model := { name := "grok-3-latest", display_name := some "Grok 3",
                     max_tokens := 131072, max_output_tokens := some 4096,
                     max_completion_tokens := some 4096 } }
        (some { api_key := some "xai-key", api_key_from_env := false }) "").2 =
      [{ api_url := "https://api.x.ai/v1", api_key := "xai-key" }] ∧
    (GrokLanguageModel.stream_completion
        { id := "grok-3-latest",
          model := { name := "grok-3-latest", display_name := some "Grok 3",
                     max_tokens := 131072, max_output_tokens := some 4096,
                     max_completion_tokens := some 4096 } }
        (some { api_key := some "xai-key", api_key_from_env := false })
        "https://proxy.example/v1").2 =
      [{ api_url := "https://proxy.example/v1", api_key := "xai-key" }] :=
  ⟨rfl,
   (c7_api_url_resolution _ _ "xai-key" "" rfl).trans (by decide),
   (c7_api_url_resolution _ _ "xai-key" "https://proxy.example/v1" rfl).trans
     (by decide)⟩

/-- Claim C8: `supports_images` holds iff the model id contains the substring
"vision"; `supports_tools` is always true; `supports_tool_choice` is true for
every choice arm. -/
theorem c8_capability_flags (m : GrokLanguageModel) :
    (m.supports_images = true ↔ "vision".data <:+: m.model.id.data) ∧
    m.supports_tools = true ∧
    (∀ choice : LanguageModelToolChoice, m.supports_tool_choice choice = true) := by
  refine ⟨?_, rfl, fun choice => by cases choice <;> rfl⟩
  simp [GrokLanguageModel.supports_images, strContains]

/-- Claim C9 counterexample: on the all-whitespace input `" "` the claim predicts
no submission (the trimmed text is empty), but `save_api_key` submits the
untrimmed `" "` to `set_api_key`. -/
theorem c9_counterexample :
    ConfigurationView.save_api_key " " = some " " ∧
    save_api_key_claimed " " = none := by
  constructor
  · simp [ConfigurationView.save_api_key, String.isEmpty_iff]
  · decide

/-- Claim C9 as amended: `save_api_key` does not trim; it submits the raw entered
text to `set_api_key` verbatim iff the raw text is non-empty, and submits nothing
otherwise. -/
theorem c9_save_api_key_raw (text : String) :
    ConfigurationView.save_api_key text =
      if text = "" then none else some text := by
  simp [ConfigurationView.save_api_key, String.isEmpty_iff]

/-- Claim C10: `reset_api_key` only clears the in-memory state — its trace holds
no credential-store event — so with no environment key a subsequent `authenticate`
re-adopts the still-stored credential. -/
theorem c10_reset_preserves_store (s : State)
    (store : String → Option (String × String)) (api_url label stored_key : String)
    (hstore : store api_url = some (label, stored_key)) :
    s.reset_api_key =
      (.ok (), { api_key := none, api_key_from_env := false },
       [.setState none false, .notify]) ∧
    State.authenticate { api_key := none, api_key_from_env := false } none store
        api_url =
      (.ok (), { api_key := some stored_key, api_key_from_env := false },
       [.storeRead api_url, .setState (some stored_key) false, .notify]) :=
  ⟨rfl, by simp [State.authenticate, State.is_authenticated, hstore]⟩

/-- Witness for C10 at a concrete state and a store holding a saved key. -/
theorem c10_witness :
    (fun url => if url = "https://example.com/v1"
        then some (("Bearer", "stored-key") : String × String) else none)
      "https://example.com/v1" = some ("Bearer", "stored-key") ∧
    (State.reset_api_key { api_key := some "old", api_key_from_env := true } =
      (.ok (), { api_key := none, api_key_from_env := false },
       [.setState none false, .notify]) ∧
    State.authenticate { api_key := none, api_key_from_env := false } none
        (fun url => if url = "https://example.com/v1"
          then some (("Bearer", "stored-key") : String × String) else none)
        "https://example.com/v1" =
      (.ok (), { api_key := some "stored-key", api_key_from_env := false },
       [.storeRead "https://example.com/v1",
        .setState (some "stored-key") false, .notify])) :=
  ⟨by decide,
   c10_reset_preserves_store _ _ "https://example.com/v1" "Bearer" "stored-key"
     (by decide)⟩

end Grok
